import Mathlib

/-!
Shallow embedding of `crates/swc_ecma_ast/src/ident.rs`: the identifier
value type (`Ident`), its structural equality and hash input, the
span-insensitive comparison `eq_ignore_span` with its dynamically scoped
ignore-hygiene flag, the character classifier (`is_valid_start`,
`is_valid_continue`), the reserved-word tables, and the symbol
validator/mangler `verify_symbol`.

Machine integers (`BytePos`, `SyntaxContext`) are modelled as `Nat`;
interned atoms as `String`; `Result<(), String>` as `Except String Unit`.
-/

namespace Swc

/-- Modelled from the spec: `swc_common::Span` (not under `src/`), the source
position of a node: byte range `lo ..= hi` plus the hygiene tag `ctxt`
(`SyntaxContext`) embedded in it.  Its equality and hash are structural over
all three fields ("full source position (including hygiene tag embedded in
it)"). -/
structure Span where
  lo : Nat
  hi : Nat
  ctxt : Nat
deriving DecidableEq

/-- Modelled from the spec: `BytePos::DUMMY` of `swc_common`, the dummy byte
position. -/
def BytePos_DUMMY : Nat := 0

/-- Modelled from the spec: `swc_common::DUMMY_SP`, the dummy span (dummy
byte positions, "no context" hygiene tag). -/
def DUMMY_SP : Span := ⟨BytePos_DUMMY, BytePos_DUMMY, 0⟩

/-- Modelled from the spec: `Span::with_ctxt` of `swc_common`, replacing the
hygiene tag while keeping the byte positions. -/
def Span.with_ctxt (s : Span) (ctxt : Nat) : Span :=
  { s with ctxt := ctxt }

/-- `Ident` of `ident.rs` (lines 138-148): span, interned symbol, and the
TypeScript-only `optional` flag.  `#[derive(Eq, Hash)]` makes equality and
hashing structural over the three fields in declaration order; Lean's
structural `=` (with the derived `DecidableEq`) plays the role of the derived
`Eq`. -/
structure Ident where
  span : Span
  sym : String
  optional : Bool
deriving DecidableEq

/-- The data fed to the hasher by the derived `Hash` of `Ident`: the fields
in declaration order — `span` (its three integers), then `sym` (its length
followed by its characters, the length-delimited model of the terminated
byte stream Rust feeds for a string), then `optional`. -/
def hashInput (i : Ident) : List Nat :=
  [i.span.lo, i.span.hi, i.span.ctxt, i.sym.length]
    ++ i.sym.data.map Char.toNat
    ++ [if i.optional then 1 else 0]

/-- Modelled from the spec: the `unicode_id` crate's `UnicodeID` queries used
by the classifier above code point 128 (not under `src/`): "a standard
Unicode identifier-property classification (`ID_Start` / `ID_Continue`)".
UAX #31 defines `ID_Continue` as a superset of `ID_Start`, so any standard
classification carries the containment recorded here as a field. -/
structure UnicodeID where
  is_id_start : Char → Bool
  is_id_continue : Char → Bool
  id_start_le_id_continue : ∀ c, is_id_start c = true → is_id_continue c = true

/-- A trivial instance of the Unicode model (no code point above 127 is an
identifier character), used to evaluate the embedding on concrete ASCII
inputs. -/
def unicodeNone : UnicodeID :=
  ⟨fun _ => false, fun _ => false, fun _ h => h⟩

/-- The `ASCII_START` table of `Ident::is_valid_start` (lines 221-227),
transcribed entry for entry; `T`/`F` as in the source. -/
def ASCII_START : List Bool :=
  let T := true
  let F := false
  [F, F, F, F, F, F, F, F, F, F, F, F, F, F, F, F, F, F, F, F, F, F, F, F, F, F, F, F, F,
   F, F, F, F, F, F, F, T, F, F, F, F, F, F, F, F, F, F, F, F, F, F, F, F, F, F, F, F, F,
   F, F, F, F, F, F, F, T, T, T, T, T, T, T, T, T, T, T, T, T, T, T, T, T, T, T, T, T, T,
   T, T, T, T, F, F, F, F, T, F, T, T, T, T, T, T, T, T, T, T, T, T, T, T, T, T, T, T, T,
   T, T, T, T, T, T, T, F, F, F, F, F]

/-- The `ASCII_CONTINUE` table of `Ident::is_valid_continue` (lines 241-247),
transcribed entry for entry. -/
def ASCII_CONTINUE : List Bool :=
  let T := true
  let F := false
  [F, F, F, F, F, F, F, F, F, F, F, F, F, F, F, F, F, F, F, F, F, F, F, F, F, F, F, F, F,
   F, F, F, F, F, F, F, T, F, F, F, F, F, F, F, F, F, F, F, T, T, T, T, T, T, T, T, T, T,
   F, F, F, F, F, F, F, T, T, T, T, T, T, T, T, T, T, T, T, T, T, T, T, T, T, T, T, T, T,
   T, T, T, T, F, F, F, F, T, F, T, T, T, T, T, T, T, T, T, T, T, T, T, T, T, T, T, T, T,
   T, T, T, T, T, T, T, F, F, F, F, F]

/-- `Ident::is_valid_start` (lines 217-234): table lookup for ASCII
(`c.is_ascii()`, i.e. code point below 128), Unicode `ID_Start` above. -/
def is_valid_start (u : UnicodeID) (c : Char) : Bool :=
  if c.toNat < 128 then ASCII_START.getD c.toNat false
  else u.is_id_start c

/-- `Ident::is_valid_continue` (lines 236-254): table lookup for ASCII,
otherwise Unicode `ID_Continue` or the two zero-width joiner code points
U+200C / U+200D. -/
def is_valid_continue (u : UnicodeID) (c : Char) : Bool :=
  if c.toNat < 128 then ASCII_CONTINUE.getD c.toNat false
  else u.is_id_continue c || c == '\u200C' || c == '\u200D'

/-- The `RESERVED` set (lines 377-415). -/
def RESERVED : List String :=
  ["break", "case", "catch", "class", "const", "continue", "debugger",
   "default", "delete", "do", "else", "enum", "export", "extends", "false",
   "finally", "for", "function", "if", "import", "in", "instanceof", "new",
   "null", "package", "return", "super", "switch", "this", "throw", "true",
   "try", "typeof", "var", "void", "while", "with"]

/-- The `RESSERVED_IN_STRICT_MODE` set (lines 417-427). -/
def RESSERVED_IN_STRICT_MODE : List String :=
  ["implements", "interface", "let", "package", "private", "protected",
   "public", "static", "yield"]

/-- The `RESERVED_IN_ES3` set (lines 429-446). -/
def RESERVED_IN_ES3 : List String :=
  ["abstract", "boolean", "byte", "char", "double", "final", "float",
   "goto", "int", "long", "native", "short", "synchronized", "throws",
   "transient", "volatile"]

/-- `IdentExt::is_reserved` (lines 449-451). -/
def is_reserved (s : String) : Bool :=
  RESERVED.contains s

/-- `IdentExt::is_reserved_in_strict_mode` (lines 453-458). -/
def is_reserved_in_strict_mode (s : String) (is_module : Bool) : Bool :=
  if is_module && s == "await" then true
  else RESSERVED_IN_STRICT_MODE.contains s

/-- `IdentExt::is_reserved_in_strict_bind` (lines 460-462). -/
def is_reserved_in_strict_bind (s : String) : Bool :=
  ["eval", "arguments"].contains s

/-- `IdentExt::is_reserved_in_es3` (lines 464-466). -/
def is_reserved_in_es3 (s : String) : Bool :=
  RESERVED_IN_ES3.contains s

/-- The local `is_reserved_symbol` of `Ident::verify_symbol` (lines
261-263). -/
def is_reserved_symbol (s : String) : Bool :=
  is_reserved s || is_reserved_in_strict_mode s true || is_reserved_in_strict_bind s

/-- The accept check of `Ident::verify_symbol` (lines 272-280): some first
character, valid start, and all remaining characters valid continue. -/
def verify_accepts (u : UnicodeID) (s : String) : Bool :=
  match s.data with
  | [] => false
  | first :: rest => is_valid_start u first && rest.all (is_valid_continue u)

/-- The repair loop of `Ident::verify_symbol` (lines 283-295): walk the
characters with the `has_start` flag and the accumulated `buf`.  Note the
second branch pushes any valid-continue character whether or not `has_start`
is set, exactly as the source does. -/
def repair_loop (u : UnicodeID) : List Char → Bool → String → String
  | [], _, buf => buf
  | c :: cs, has_start, buf =>
    if !has_start && is_valid_start u c then
      repair_loop u cs true (buf.push c)
    else if is_valid_continue u c then
      repair_loop u cs has_start (buf.push c)
    else
      repair_loop u cs has_start buf

/-- `Ident::verify_symbol` (lines 260-309). -/
def verify_symbol (u : UnicodeID) (s : String) : Except String Unit :=
  if is_reserved_symbol s then
    Except.error ("_" ++ s)
  else if verify_accepts u s then
    Except.ok ()
  else
    let buf := repair_loop u s.data false ""
    let buf := if buf.isEmpty then "_" else buf
    let buf := if is_reserved_symbol buf then "_" ++ buf else buf
    Except.error buf

/-- `EqIgnoreSpan for Ident` (lines 164-176); the dynamically scoped
`EQ_IGNORE_SPAN_IGNORE_CTXT` thread-local is passed as the explicit
`ignore_ctxt` argument (`EQ_IGNORE_SPAN_IGNORE_CTXT.is_set()`). -/
def eq_ignore_span (ignore_ctxt : Bool) (a b : Ident) : Bool :=
  if a.sym ≠ b.sym then false
  else if a.span.ctxt = b.span.ctxt then true
  else ignore_ctxt

/-- `Ident::within_ignored_ctxt` (lines 197-203): runs `op` with the
ignore-hygiene flag set; the flag is clear outside the call (the
`scoped_thread_local` is unset at top level, so comparisons before and after
the call read `false`). -/
def within_ignored_ctxt {Ret : Type} (op : Bool → Ret) : Ret :=
  op true

/-- `Ident::new` (lines 368-374): `optional` defaults to `false`. -/
def Ident.new (sym : String) (span : Span) : Ident :=
  ⟨span, sym, false⟩

/-- `Id` (line 318): the compact identity key `(Atom, SyntaxContext)`. -/
def Id : Type := String × Nat

/-- `Ident::to_id` (lines 212-215). -/
def Ident.to_id (i : Ident) : Id :=
  (i.sym, i.span.ctxt)

/-- `From<Id> for Ident` (lines 178-182). -/
def Ident.from_id (id : Id) : Ident :=
  Ident.new id.1 (DUMMY_SP.with_ctxt id.2)

/-- `Ident::without_loc` (lines 206-210). -/
def Ident.without_loc (i : Ident) : Ident :=
  { i with span := { i.span with lo := BytePos_DUMMY, hi := BytePos_DUMMY } }

/-- `Ident::is_dummy` (lines 311-314); a span is dummy when both byte
positions and the hygiene tag are the dummy values. -/
def Ident.is_dummy (i : Ident) : Bool :=
  i.sym == "" && decide (i.span = DUMMY_SP)

end Swc

namespace Swc

/-! Helper lemmas shared by the claim theorems. -/

lemma char_toNat_injective : Function.Injective Char.toNat := by
  intro a b h
  exact Char.ext (UInt32.toNat.inj h)

lemma string_eq_of_data {s t : String} (h : s.data = t.data) : s = t := by
  cases s
  cases t
  simp_all

lemma span_eq_iff (x y : Span) :
    x = y ↔ (x.lo = y.lo ∧ x.hi = y.hi ∧ x.ctxt = y.ctxt) := by
  cases x
  cases y
  simp_all [and_assoc]

lemma ident_eq_iff (a b : Ident) :
    a = b ↔ (a.sym = b.sym ∧ a.span = b.span ∧ a.optional = b.optional) := by
  cases a
  cases b
  simp_all [and_assoc, and_comm, and_left_comm]

lemma hashInput_eq_iff (a b : Ident) :
    hashInput a = hashInput b ↔
      (a.sym = b.sym ∧ a.span = b.span ∧ a.optional = b.optional) := by
  constructor
  · intro h
    simp only [hashInput, List.cons_append, List.nil_append, List.cons.injEq] at h
    obtain ⟨hlo, hhi, hctxt, hlen, htail⟩ := h
    have hmaplen : (a.sym.data.map Char.toNat).length = (b.sym.data.map Char.toNat).length := by
      simpa [List.length_map] using hlen
    obtain ⟨hmap, hopt⟩ := List.append_inj htail hmaplen
    have hdata : a.sym.data = b.sym.data := List.map_injective_iff.mpr char_toNat_injective hmap
    refine ⟨string_eq_of_data hdata, (span_eq_iff _ _).mpr ⟨hlo, hhi, hctxt⟩, ?_⟩
    have hopt' : (if a.optional then (1 : Nat) else 0) = (if b.optional then 1 else 0) := by
      simpa using hopt
    cases ha : a.optional <;> cases hb : b.optional <;> simp_all
  · rintro ⟨hsym, hspan, hopt⟩
    simp [hashInput, hsym, hspan, hopt]

lemma verify_accepts_iff (u : UnicodeID) (s : String) :
    verify_accepts u s = true ↔
      ∃ c cs, s.data = c :: cs ∧ is_valid_start u c = true
        ∧ ∀ d ∈ cs, is_valid_continue u d = true := by
  unfold verify_accepts
  cases h : s.data with
  | nil => simp [h]
  | cons c cs =>
    simp only [h, Bool.and_eq_true, List.all_eq_true, List.cons.injEq]
    constructor
    · rintro ⟨h1, h2⟩
      exact ⟨c, cs, ⟨rfl, rfl⟩, h1, h2⟩
    · rintro ⟨c', cs', ⟨rfl, rfl⟩, h1, h2⟩
      exact ⟨h1, h2⟩

lemma ascii_start_spec :
    ∀ i : Fin 128,
      (ASCII_START.getD i.val false = true ↔
        ((65 ≤ i.val ∧ i.val ≤ 90) ∨ (97 ≤ i.val ∧ i.val ≤ 122)
          ∨ i.val = 95 ∨ i.val = 36)) := by decide

lemma ascii_continue_spec :
    ∀ i : Fin 128,
      (ASCII_CONTINUE.getD i.val false = true ↔
        ((65 ≤ i.val ∧ i.val ≤ 90) ∨ (97 ≤ i.val ∧ i.val ≤ 122)
          ∨ i.val = 95 ∨ i.val = 36 ∨ (48 ≤ i.val ∧ i.val ≤ 57))) := by decide

lemma ascii_start_le_continue :
    ∀ i : Fin 128,
      ASCII_START.getD i.val false = true → ASCII_CONTINUE.getD i.val false = true := by
  decide

end Swc

namespace Swc

/-- C2: default equality and hashing of `Ident` are fully structural: two
identifiers are equal iff their symbol, their full span (including the
hygiene tag), and their optional flag are pairwise equal, and the hash input
agrees exactly under the same condition (so each of the three components
participates in the hash). -/
theorem C2_eq_hash_structural (a b : Ident) :
    (a = b ↔ (a.sym = b.sym ∧ a.span = b.span ∧ a.optional = b.optional))
    ∧ (hashInput a = hashInput b ↔
        (a.sym = b.sym ∧ a.span = b.span ∧ a.optional = b.optional)) :=
  ⟨ident_eq_iff a b, hashInput_eq_iff a b⟩

/-- C1 counterexample: two identifiers with equal symbol and hygiene tag but
different byte positions are not equal under the structural equality, and
their hash inputs differ, refuting the claim that equal symbol and hygiene
tag alone force equality and identical hashes. -/
theorem C1_span_blind_eq_refuted :
    (Ident.mk ⟨0, 1, 5⟩ "x" false).sym = (Ident.mk ⟨2, 3, 5⟩ "x" false).sym
    ∧ (Ident.mk ⟨0, 1, 5⟩ "x" false).span.ctxt = (Ident.mk ⟨2, 3, 5⟩ "x" false).span.ctxt
    ∧ ¬(Ident.mk ⟨0, 1, 5⟩ "x" false = Ident.mk ⟨2, 3, 5⟩ "x" false
        ∧ hashInput (Ident.mk ⟨0, 1, 5⟩ "x" false)
            = hashInput (Ident.mk ⟨2, 3, 5⟩ "x" false)) := by
  decide

/-- C1 (amended): two identifiers with equal symbol and equal hygiene tag
satisfy the span-insensitive comparison `eq_ignore_span` regardless of their
byte positions; they are equal under the structural `Eq` — and their hash
inputs coincide — exactly when `span.lo`, `span.hi` and the optional flag
also agree. -/
theorem C1_same_sym_ctxt (a b : Ident)
    (hs : a.sym = b.sym) (hc : a.span.ctxt = b.span.ctxt) :
    eq_ignore_span false a b = true
    ∧ (a = b ↔ (a.span.lo = b.span.lo ∧ a.span.hi = b.span.hi ∧ a.optional = b.optional))
    ∧ (hashInput a = hashInput b ↔
        (a.span.lo = b.span.lo ∧ a.span.hi = b.span.hi ∧ a.optional = b.optional)) := by
  refine ⟨?_, ?_, ?_⟩
  · simp [eq_ignore_span, hs, hc]
  · rw [ident_eq_iff, span_eq_iff]
    simp [hs, hc, and_assoc]
  · rw [hashInput_eq_iff, span_eq_iff]
    simp [hs, hc, and_assoc]

theorem C1_same_sym_ctxt_witness :
    eq_ignore_span false (Ident.mk ⟨0, 1, 5⟩ "x" false) (Ident.mk ⟨2, 3, 5⟩ "x" false) = true
    ∧ ((Ident.mk ⟨0, 1, 5⟩ "x" false = Ident.mk ⟨2, 3, 5⟩ "x" false) ↔
        ((0 : Nat) = 2 ∧ (1 : Nat) = 3 ∧ false = false))
    ∧ (hashInput (Ident.mk ⟨0, 1, 5⟩ "x" false) = hashInput (Ident.mk ⟨2, 3, 5⟩ "x" false) ↔
        ((0 : Nat) = 2 ∧ (1 : Nat) = 3 ∧ false = false)) :=
  C1_same_sym_ctxt (Ident.mk ⟨0, 1, 5⟩ "x" false) (Ident.mk ⟨2, 3, 5⟩ "x" false) rfl rfl

/-- C3: `verify_symbol` returns `Ok(())` iff the string is non-empty, its
first character is a valid start, every later character is a valid continue,
and the string is not reserved under the combined reserved test; in every
other case it returns `Err` carrying some corrected string. -/
theorem C3_verify_symbol_ok_iff (u : UnicodeID) (s : String) :
    (verify_symbol u s = Except.ok () ↔
      ((∃ c cs, s.data = c :: cs ∧ is_valid_start u c = true
          ∧ ∀ d ∈ cs, is_valid_continue u d = true)
        ∧ is_reserved_symbol s = false))
    ∧ (verify_symbol u s = Except.ok ()
        ∨ ∃ msg, verify_symbol u s = Except.error msg) := by
  unfold verify_symbol
  by_cases hr : is_reserved_symbol s
  · simp [hr]
  · by_cases ha : verify_accepts u s
    · simp [hr, ha, ← verify_accepts_iff]
    · simp [hr, ha, ← verify_accepts_iff]

/-- C4: code evaluated at the failing input.  The repair loop keeps the
leading digit of `"1abc"` (it pushes any valid-continue character even
before a valid start has been seen), so the corrected string is `"1abc"`,
not the `"abc"` the claim and the spec state; the other three documented
cases behave as claimed. -/
theorem C4_corrected_string_at_failing_input :
    verify_symbol unicodeNone "1abc" = Except.error "1abc"
    ∧ verify_symbol unicodeNone "true" = Except.error "_true"
    ∧ verify_symbol unicodeNone "" = Except.error "_"
    ∧ verify_symbol unicodeNone "valid_name1" = Except.ok () :=
  ⟨rfl, rfl, rfl, rfl⟩

/-- C5: code evaluated at the failing input.  `verify_symbol "1abc"` returns
the corrected string `"1abc"`, and `verify_symbol` applied to that corrected
string is an `Err` again, not `Ok(())`: idempotence on the corrected output
fails on this code. -/
theorem C5_idempotence_fails_at_failing_input :
    verify_symbol unicodeNone "1abc" = Except.error "1abc"
    ∧ verify_symbol unicodeNone "1abc" ≠ Except.ok () := by
  refine ⟨rfl, fun h => ?_⟩
  have h' : (Except.error "1abc" : Except String Unit) = Except.ok () := h
  exact Except.noConfusion h'

/-- C6: `eq_ignore_span` holds iff the symbols agree and either the hygiene
tags agree or the ignore-hygiene flag is set; the flag is set exactly inside
`within_ignored_ctxt`, so for equal-symbol, different-tag identifiers the
comparison is true inside that scope and false with the flag clear (before
and after it). -/
theorem C6_eq_ignore_span_spec (a b : Ident) :
    (∀ flag : Bool, eq_ignore_span flag a b = true ↔
        (a.sym = b.sym ∧ (a.span.ctxt = b.span.ctxt ∨ flag = true)))
    ∧ (a.sym = b.sym → a.span.ctxt ≠ b.span.ctxt →
        (within_ignored_ctxt (fun flag => eq_ignore_span flag a b) = true
          ∧ eq_ignore_span false a b = false)) := by
  constructor
  · intro flag
    unfold eq_ignore_span
    by_cases hs : a.sym = b.sym
    · by_cases hc : a.span.ctxt = b.span.ctxt <;> simp [hs, hc]
    · simp [hs]
  · intro hs hc
    unfold within_ignored_ctxt eq_ignore_span
    simp [hs, hc]

theorem C6_eq_ignore_span_witness :
    within_ignored_ctxt
        (fun flag =>
          eq_ignore_span flag (Ident.mk ⟨0, 0, 1⟩ "x" false) (Ident.mk ⟨0, 0, 2⟩ "x" false)) = true
    ∧ eq_ignore_span false (Ident.mk ⟨0, 0, 1⟩ "x" false) (Ident.mk ⟨0, 0, 2⟩ "x" false) = false :=
  (C6_eq_ignore_span_spec (Ident.mk ⟨0, 0, 1⟩ "x" false) (Ident.mk ⟨0, 0, 2⟩ "x" false)).2
    rfl (by decide)

/-- C8: `is_reserved_in_strict_mode` holds iff the string is in the
strict-mode reserved table or the module flag is set and the string is
`"await"`; in particular `"await"` is reserved exactly when `is_module` is
true. -/
theorem C8_is_reserved_in_strict_mode_spec :
    (∀ (s : String) (m : Bool),
      is_reserved_in_strict_mode s m = true ↔
        (s ∈ RESSERVED_IN_STRICT_MODE ∨ (m = true ∧ s = "await")))
    ∧ is_reserved_in_strict_mode "await" true = true
    ∧ is_reserved_in_strict_mode "await" false = false := by
  refine ⟨fun s m => ?_, rfl, rfl⟩
  unfold is_reserved_in_strict_mode
  by_cases h : (m && s == "await") = true
  · rw [Bool.and_eq_true] at h
    obtain ⟨hm, hs⟩ := h
    have hs' : s = "await" := by simpa using hs
    simp [hm, hs']
  · have h' : ¬(m = true ∧ s = "await") := by
      rintro ⟨hm, hs⟩
      exact h (by simp [hm, hs])
    rw [if_neg h]
    constructor
    · intro hc
      exact Or.inl (List.elem_iff.mp hc)
    · rintro (hmem | hright)
      · exact List.elem_iff.mpr hmem
      · exact absurd hright h'

/-- C9: reconstructing an identifier from its identity key preserves the
symbol and the hygiene tag and puts the dummy byte positions in the span. -/
theorem C9_to_id_roundtrip (i : Ident) :
    (Ident.from_id i.to_id).sym = i.sym
    ∧ (Ident.from_id i.to_id).span.ctxt = i.span.ctxt
    ∧ (Ident.from_id i.to_id).span.lo = BytePos_DUMMY
    ∧ (Ident.from_id i.to_id).span.hi = BytePos_DUMMY :=
  ⟨rfl, rfl, rfl, rfl⟩

end Swc

namespace Swc

/-- C7: below code point 128 the classifier follows the ASCII tables — valid
starts are exactly the letters (code points 65-90 and 97-122), `_` and `$`,
and valid continues additionally the digits (code points 48-57); at or above
128 `is_valid_start` equals the Unicode `ID_Start` query and
`is_valid_continue` equals the Unicode `ID_Continue` query except that
U+200C and U+200D are always valid continues. -/
theorem C7_classifier_spec (u : UnicodeID) (c : Char) :
    (c.toNat < 128 →
      ((is_valid_start u c = true ↔
          ((65 ≤ c.toNat ∧ c.toNat ≤ 90) ∨ (97 ≤ c.toNat ∧ c.toNat ≤ 122)
            ∨ c = '_' ∨ c = '$'))
        ∧ (is_valid_continue u c = true ↔
          ((65 ≤ c.toNat ∧ c.toNat ≤ 90) ∨ (97 ≤ c.toNat ∧ c.toNat ≤ 122)
            ∨ c = '_' ∨ c = '$' ∨ (48 ≤ c.toNat ∧ c.toNat ≤ 57)))))
    ∧ (128 ≤ c.toNat →
        (is_valid_start u c = u.is_id_start c
          ∧ (c ≠ '\u200C' → c ≠ '\u200D' → is_valid_continue u c = u.is_id_continue c)))
    ∧ is_valid_continue u '\u200C' = true
    ∧ is_valid_continue u '\u200D' = true := by
  have e95 : '_'.toNat = 95 := by decide
  have e36 : '$'.toNat = 36 := by decide
  have h95 : c.toNat = 95 ↔ c = '_' :=
    ⟨fun h => char_toNat_injective (by rw [h, e95]), fun h => by rw [h, e95]⟩
  have h36 : c.toNat = 36 ↔ c = '$' :=
    ⟨fun h => char_toNat_injective (by rw [h, e36]), fun h => by rw [h, e36]⟩
  refine ⟨fun h => ⟨?_, ?_⟩, fun h => ⟨?_, fun h1 h2 => ?_⟩, ?_, ?_⟩
  · have key : (ASCII_START.getD c.toNat false = true ↔
        ((65 ≤ c.toNat ∧ c.toNat ≤ 90) ∨ (97 ≤ c.toNat ∧ c.toNat ≤ 122)
          ∨ c.toNat = 95 ∨ c.toNat = 36)) := ascii_start_spec ⟨c.toNat, h⟩
    have lhs : is_valid_start u c = ASCII_START.getD c.toNat false := by
      simp [is_valid_start, h]
    rw [lhs, key, h95, h36]
  · have key : (ASCII_CONTINUE.getD c.toNat false = true ↔
        ((65 ≤ c.toNat ∧ c.toNat ≤ 90) ∨ (97 ≤ c.toNat ∧ c.toNat ≤ 122)
          ∨ c.toNat = 95 ∨ c.toNat = 36 ∨ (48 ≤ c.toNat ∧ c.toNat ≤ 57))) :=
      ascii_continue_spec ⟨c.toNat, h⟩
    have lhs : is_valid_continue u c = ASCII_CONTINUE.getD c.toNat false := by
      simp [is_valid_continue, h]
    rw [lhs, key, h95, h36]
  · have hn : ¬(c.toNat < 128) := by omega
    simp [is_valid_start, hn]
  · have hn : ¬(c.toNat < 128) := by omega
    have b1 : (c == '\u200C') = false := by simpa using h1
    have b2 : (c == '\u200D') = false := by simpa using h2
    simp [is_valid_continue, hn, b1, b2]
  · unfold is_valid_continue
    rw [if_neg (by decide)]
    simp
  · unfold is_valid_continue
    rw [if_neg (by decide)]
    simp

theorem C7_classifier_witness :
    (is_valid_start unicodeNone 'a' = true ↔
        ((65 ≤ 'a'.toNat ∧ 'a'.toNat ≤ 90) ∨ (97 ≤ 'a'.toNat ∧ 'a'.toNat ≤ 122)
          ∨ 'a' = '_' ∨ 'a' = '$'))
    ∧ (is_valid_continue unicodeNone 'a' = true ↔
        ((65 ≤ 'a'.toNat ∧ 'a'.toNat ≤ 90) ∨ (97 ≤ 'a'.toNat ∧ 'a'.toNat ≤ 122)
          ∨ 'a' = '_' ∨ 'a' = '$' ∨ (48 ≤ 'a'.toNat ∧ 'a'.toNat ≤ 57))) :=
  (C7_classifier_spec unicodeNone 'a').1 (by decide)

/-- C10: every valid identifier-start character is also a valid
identifier-continue character: on the ASCII tables the start table is
pointwise below the continue table, and above code point 128 the Unicode
classification has `ID_Start` contained in `ID_Continue`. -/
theorem C10_start_subset_continue (u : UnicodeID) (c : Char)
    (h : is_valid_start u c = true) : is_valid_continue u c = true := by
  by_cases hc : c.toNat < 128
  · have key := ascii_start_le_continue ⟨c.toNat, hc⟩
    have h' : ASCII_START.getD c.toNat false = true := by
      simpa [is_valid_start, hc] using h
    have hcont : ASCII_CONTINUE.getD c.toNat false = true := key h'
    simpa [is_valid_continue, hc] using hcont
  · have h' : u.is_id_start c = true := by
      simpa [is_valid_start, hc] using h
    have hcont := u.id_start_le_id_continue c h'
    simp [is_valid_continue, hc, hcont]

theorem C10_start_subset_continue_witness :
    is_valid_continue unicodeNone 'a' = true :=
  C10_start_subset_continue unicodeNone 'a' (by decide)

end Swc
